import Mathlib

/-!
Verification of `tftblinky.py` (repository D31337m3/tftblinky).

The Python class `TFTBlinky` detects a backlight control method at
construction (a display brightness property, a named backlight pin, or
nothing), toggles the backlight through the detected method, and restores
the captured original value after a blink sequence.

Shallow embedding: the controller's fields and the hardware it owns form
one state record `S`; every method returns the new state together with a
trace of observable events (diagnostic prints, sleeps, brightness writes,
pin writes).  Brightness values and sleep durations are modelled as `ℚ`:
the Python code only stores and copies the constants `1.0`, `0.0` and the
captured original, so no floating-point rounding can occur.  Python
exceptions relevant to construction (`AttributeError`, `TypeError`) are
modelled explicitly with `Except`.
-/

/-- The exception classes caught by `TFTBlinky.__init__`
(`except (AttributeError, TypeError)`), which per the spec are the error
classes the display lookup can raise. -/
inductive PyExc
  | attributeError
  | typeError
  deriving DecidableEq, Repr

/-- Observable events emitted by the controller: diagnostic prints,
`time.sleep` calls, writes to `self.display.brightness`, and writes to
`self.backlight.value`. -/
inductive Event
  | print (msg : String)
  | sleep (t : ℚ)
  | writeBrightness (v : ℚ)
  | writePin (b : Bool)
  deriving DecidableEq, Repr

/-- Python's `str` of a boolean, used by the f-string in
`restore_original_state`. -/
def pyBoolStr (b : Bool) : String :=
  if b then "True" else "False"

/-- Controller state after construction, together with the hardware it
owns.  `control_method`, `original_brightness` are the object's fields;
`original_state` is `some p` exactly when the attribute `original_state`
was set (Python probes it with `hasattr`); `backlight_pin` records which
named pin `self.backlight` wraps; `displayBrightness` and `pinLevel` are
the observable hardware surfaces behind `self.display.brightness` and
`self.backlight.value`. -/
structure S where
  control_method : Option String
  original_brightness : Option ℚ
  original_state : Option Bool
  backlight_pin : Option String
  displayBrightness : ℚ
  pinLevel : Bool
  deriving DecidableEq, Repr

/-- Python truthiness test `not self.control_method`: `None` and the empty
string are falsy. -/
def pyFalsy : Option String → Bool
  | none => true
  | some m => m == ""

/-- Embedding of `TFTBlinky.set_backlight(state)` (lines 44–54): under `"brightness"`
writes `1.0 if state else 0.0` to the display, under `"pin"` writes
`state` to the pin, otherwise does nothing; always returns `state`. -/
def set_backlight (s : S) (state : Bool) : S × List Event × Bool :=
  if s.control_method = some "brightness" then
    let v : ℚ := if state then 1 else 0
    ({ s with displayBrightness := v }, [Event.writeBrightness v], state)
  else if s.control_method = some "pin" then
    ({ s with pinLevel := state }, [Event.writePin state], state)
  else
    (s, [], state)

/-- Embedding of `TFTBlinky.restore_original_state` (lines 80–87): writes back the
captured original value through the active method, with a diagnostic;
each branch is guarded by the capture being present (`is not None` at
line 82, `hasattr(self, 'original_state')` at line 85). -/
def restore_original_state (s : S) : S × List Event :=
  if s.control_method = some "brightness" ∧ s.original_brightness ≠ none then
    match s.original_brightness with
    | some b0 =>
        ({ s with displayBrightness := b0 },
         [Event.writeBrightness b0,
          Event.print ("Restored original brightness: " ++ toString b0)])
    | none => (s, [])
  else if s.control_method = some "pin" ∧ s.original_state ≠ none then
    match s.original_state with
    | some p0 =>
        ({ s with pinLevel := p0 },
         [Event.writePin p0,
          Event.print ("Restored original backlight state: " ++ pyBoolStr p0)])
    | none => (s, [])
  else
    (s, [])

/-- One pass of the body of the `for i in range(count)` loop in `blink`
(lines 68–75), iterated `n` times: set backlight true, sleep `on_time`,
set backlight false, sleep `off_time`. -/
def blinkLoop (on_time off_time : ℚ) : S → Nat → S × List Event
  | s, 0 => (s, [])
  | s, n + 1 =>
      let r1 := set_backlight s true
      let r2 := set_backlight r1.1 false
      let rest := blinkLoop on_time off_time r2.1 n
      (rest.1,
       r1.2.1 ++ [Event.sleep on_time] ++ r2.2.1 ++ [Event.sleep off_time]
         ++ rest.2)

/-- Embedding of `TFTBlinky.blink(count, on_time, off_time)` (lines 56–78): if
`not self.control_method`, print a diagnostic and return; otherwise run
the toggle loop and then call `restore_original_state`.  `count` is a
Python `int`; `range(count)` yields `count.toNat` iterations (empty for
`count ≤ 0`). -/
def blink (s : S) (count : Int) (on_time off_time : ℚ) : S × List Event :=
  if pyFalsy s.control_method then
    (s, [Event.print "No backlight control method available"])
  else
    let r := blinkLoop on_time off_time s count.toNat
    let r2 := restore_original_state r.1
    (r2.1, r.2 ++ r2.2)

/-- Outcome of the `board.DISPLAY` lookup at line 20: either a display
whose `brightness` attribute is `some` value or absent (`hasattr` at
line 23), or a raised exception. -/
inductive DisplayLookup
  | ok (brightness : Option ℚ)
  | raises (e : PyExc)
  deriving DecidableEq

/-- Ambient hardware registry (the `board` module): the display lookup's
outcome, which named pins exist (`hasattr(board, pin_name)`), and each
pin's current logic level. -/
structure Board where
  displayLookup : DisplayLookup
  hasPin : String → Bool
  pinValue : String → Bool

/-- The candidate pin names probed at lines 29–37, in source order. -/
def backlight_pins : List String :=
  ["DISPLAY_BACKLIGHT", "TFT_BACKLIGHT", "BACKLIGHT"]

/-- The `for pin_name in backlight_pins` probe (lines 30–37): the first
name present on the board is selected (`break`). -/
def findPin (hasP : String → Bool) : List String → Option String
  | [] => none
  | n :: rest => if hasP n then some n else findPin hasP rest

/-- The controller state every failure path of construction leaves behind:
all fields as initialised at lines 13–16, `control_method = None`.  The
hardware surfaces take inert defaults since no handle was obtained. -/
def inertS : S :=
  { control_method := none, original_brightness := none,
    original_state := none, backlight_pin := none,
    displayBrightness := 0, pinLevel := false }

/-- The body of the `try` block of `TFTBlinky.__init__` (lines 19–40):
the display lookup may raise; on success the brightness attribute is
preferred, else the candidate pins are probed in order, else a diagnostic
reports that no method was found. -/
def initTry (b : Board) : Except PyExc (S × List Event) :=
  match b.displayLookup with
  | .raises e => .error e
  | .ok (some br) =>
      .ok ({ control_method := some "brightness",
             original_brightness := some br,
             original_state := none, backlight_pin := none,
             displayBrightness := br, pinLevel := false },
           [Event.print "Using display brightness control"])
  | .ok none =>
      match findPin b.hasPin backlight_pins with
      | some n =>
          .ok ({ control_method := some "pin",
                 original_brightness := none,
                 original_state := some (b.pinValue n),
                 backlight_pin := some n,
                 displayBrightness := 0, pinLevel := b.pinValue n },
               [Event.print ("Using " ++ n ++ " pin for backlight control")])
      | none =>
          .ok (inertS,
               [Event.print "Could not find backlight control method. Please check your board documentation."])

/-- Embedding of `TFTBlinky.__init__` (lines 11–42): the `try` body with the
`except (AttributeError, TypeError)` handler, which absorbs both modelled
exception classes into the inert state with a diagnostic. -/
def TFTBlinky.init (b : Board) : Except PyExc (S × List Event) :=
  match initTry b with
  | .ok v => .ok v
  | .error .attributeError =>
      .ok (inertS, [Event.print "No built-in display detected."])
  | .error .typeError =>
      .ok (inertS, [Event.print "No built-in display detected."])

/-- The pin writes occurring in a trace, in order. -/
def pinWrites (tr : List Event) : List Bool :=
  tr.filterMap fun e =>
    match e with
    | Event.writePin b => some b
    | _ => none

/-- The state that the `constructedState` helper reports for a raised,
uncaught construction (unreachable: construction never raises, see the
theorem for C8). -/
def constructedState (b : Board) : S :=
  match TFTBlinky.init b with
  | .ok (s, _) => s
  | .error _ => inertS

/-- A sample brightness-controlled state used as concrete input in
witnesses: original brightness `1/2`, current display brightness `7/10`. -/
def sampleBr : S :=
  { control_method := some "brightness", original_brightness := some (1/2),
    original_state := none, backlight_pin := none,
    displayBrightness := 7/10, pinLevel := false }

/-- A sample pin-controlled state used as concrete input in witnesses:
original pin state `false`, current pin level `true`. -/
def samplePin : S :=
  { control_method := some "pin", original_brightness := none,
    original_state := some false, backlight_pin := some "BACKLIGHT",
    displayBrightness := 0, pinLevel := true }

/-- A board on which only the pin named `BACKLIGHT` exists and the display
lookup finds a display without a brightness attribute. -/
def boardOnlyBACKLIGHT : Board :=
  { displayLookup := DisplayLookup.ok none,
    hasPin := fun n => n == "BACKLIGHT",
    pinValue := fun _ => false }

/-- A board whose display lookup raises `AttributeError`. -/
def boardRaising : Board :=
  { displayLookup := DisplayLookup.raises PyExc.attributeError,
    hasPin := fun _ => false,
    pinValue := fun _ => false }

lemma set_backlight_fields (s : S) (st : Bool) :
    (set_backlight s st).1.control_method = s.control_method ∧
    (set_backlight s st).1.original_brightness = s.original_brightness ∧
    (set_backlight s st).1.original_state = s.original_state := by
  simp only [set_backlight]
  split
  · simp
  · split <;> simp

lemma blinkLoop_fields (t1 t2 : ℚ) (n : Nat) (s : S) :
    (blinkLoop t1 t2 s n).1.control_method = s.control_method ∧
    (blinkLoop t1 t2 s n).1.original_brightness = s.original_brightness ∧
    (blinkLoop t1 t2 s n).1.original_state = s.original_state := by
  induction n generalizing s with
  | zero => simp [blinkLoop]
  | succ n ih =>
      have h1 := set_backlight_fields s true
      have h2 := set_backlight_fields (set_backlight s true).1 false
      have h3 := ih (set_backlight (set_backlight s true).1 false).1
      simp only [blinkLoop]
      exact ⟨h3.1.trans (h2.1.trans h1.1),
             h3.2.1.trans (h2.2.1.trans h1.2.1),
             h3.2.2.trans (h2.2.2.trans h1.2.2)⟩

lemma restore_brightness_val (s : S) (b0 : ℚ)
    (hm : s.control_method = some "brightness")
    (hb : s.original_brightness = some b0) :
    (restore_original_state s).1.displayBrightness = b0 := by
  simp [restore_original_state, hm, hb]

lemma pyFalsy_active (s : S)
    (hm : s.control_method = some "brightness" ∨
      s.control_method = some "pin") :
    pyFalsy s.control_method = false := by
  rcases hm with hm | hm <;> simp [pyFalsy, hm]

lemma blink_toNat_zero (s : S) (c : Int) (t1 t2 : ℚ)
    (hm : s.control_method = some "brightness" ∨
      s.control_method = some "pin")
    (hc : c.toNat = 0) :
    blink s c t1 t2 = restore_original_state s := by
  simp [blink, pyFalsy_active s hm, hc, blinkLoop]

/-- C1: for every controller with `control_method = "brightness"` and
captured `original_brightness = b0`, and every count `N ≥ 0` and durations
`t1, t2 > 0`, `blink N t1 t2` followed by reading the display's brightness
yields exactly `b0`. -/
theorem blink_brightness_roundtrip (s : S) (b0 : ℚ) (N : Int) (t1 t2 : ℚ)
    (hm : s.control_method = some "brightness")
    (hb : s.original_brightness = some b0)
    (hN : 0 ≤ N) (ht1 : 0 < t1) (ht2 : 0 < t2) :
    (blink s N t1 t2).1.displayBrightness = b0 := by
  have hf := blinkLoop_fields t1 t2 N.toNat s
  have hm1 : (blinkLoop t1 t2 s N.toNat).1.control_method =
      some "brightness" := hf.1.trans hm
  have hb1 : (blinkLoop t1 t2 s N.toNat).1.original_brightness =
      some b0 := hf.2.1.trans hb
  simp only [blink, pyFalsy_active s (Or.inl hm), Bool.false_eq_true,
    if_false]
  exact restore_brightness_val _ b0 hm1 hb1

/-- Witness for C1: a concrete brightness controller with original
brightness `1/2`, blinked 3 times, reads back `1/2`. -/
theorem blink_brightness_roundtrip_witness :
    (blink sampleBr 3 1 1).1.displayBrightness = 1/2 :=
  blink_brightness_roundtrip sampleBr (1/2) 3 1 1 rfl rfl (by decide)
    (by decide) (by decide)

/-- C2: for every controller with `control_method = None` and every count
and durations, `blink` emits exactly one diagnostic and returns with the
state unchanged: no backlight writes, no sleeps, and no events from
`restore_original_state` (the early return at line 66 skips it). -/
theorem blink_inert (s : S) (count : Int) (t1 t2 : ℚ)
    (hm : s.control_method = none) :
    blink s count t1 t2 =
      (s, [Event.print "No backlight control method available"]) := by
  simp [blink, pyFalsy, hm]

/-- Witness for C2: the inert controller, `blink(5, 1/2, 1/2)`. -/
theorem blink_inert_witness :
    blink inertS 5 (1/2) (1/2) =
      (inertS, [Event.print "No backlight control method available"]) :=
  blink_inert inertS 5 (1/2) (1/2) rfl

/-- C3: `set_backlight` applies its argument through the active method:
under `"brightness"`, `true` leaves the brightness surface at `1.0` and
`false` at `0.0`; under `"pin"`, any `st` leaves the pin level at `st`. -/
theorem set_backlight_applies (s : S) :
    (s.control_method = some "brightness" →
      (set_backlight s true).1.displayBrightness = 1 ∧
      (set_backlight s false).1.displayBrightness = 0) ∧
    (s.control_method = some "pin" →
      ∀ st : Bool, (set_backlight s st).1.pinLevel = st) := by
  constructor
  · intro hm
    constructor <;> simp [set_backlight, hm]
  · intro hm st
    simp [set_backlight, hm]

/-- Witness for C3: the concrete brightness and pin controllers. -/
theorem set_backlight_applies_witness :
    (set_backlight sampleBr true).1.displayBrightness = 1 ∧
    (set_backlight samplePin false).1.pinLevel = false :=
  ⟨((set_backlight_applies sampleBr).1 rfl).1,
   (set_backlight_applies samplePin).2 rfl false⟩

/-- C4: for every controller with `control_method = None` and every
boolean `st`, `set_backlight st` changes no state, emits nothing, raises
nothing (the embedding is total), and returns `st` unchanged. -/
theorem set_backlight_inert (s : S) (st : Bool)
    (hm : s.control_method = none) :
    set_backlight s st = (s, [], st) := by
  simp [set_backlight, hm]

/-- Witness for C4: the inert controller with `st = true`. -/
theorem set_backlight_inert_witness :
    set_backlight inertS true = (inertS, [], true) :=
  set_backlight_inert inertS true rfl

/-- C5: for every controller with an active method, `blink(0, t1, t2)` is
observably the same as a single call to `restore_original_state`: zero
loop iterations (hence zero on/off writes and no sleeps) followed by the
unconditional restoration. -/
theorem blink_zero_restores (s : S) (t1 t2 : ℚ)
    (hm : s.control_method = some "brightness" ∨
      s.control_method = some "pin") :
    blink s 0 t1 t2 = restore_original_state s :=
  blink_toNat_zero s 0 t1 t2 hm rfl

/-- Witness for C5: the concrete pin controller, `blink(0, 1, 1)`. -/
theorem blink_zero_restores_witness :
    blink samplePin 0 1 1 = restore_original_state samplePin :=
  blink_zero_restores samplePin 1 1 (Or.inr rfl)

/-- C6: `restore_original_state` is idempotent on the observable state:
applying it twice yields the same state as applying it once. -/
theorem restore_idempotent (s : S) :
    (restore_original_state (restore_original_state s).1).1 =
      (restore_original_state s).1 := by
  obtain ⟨cm, ob, os, bp, db, pl⟩ := s
  by_cases h1 : cm = some "brightness" ∧ ob ≠ none
  · obtain ⟨hc, hb⟩ := h1
    obtain ⟨b0, rfl⟩ := Option.ne_none_iff_exists'.mp hb
    subst hc
    simp [restore_original_state]
  · by_cases h2 : cm = some "pin" ∧ os ≠ none
    · obtain ⟨hc, ho⟩ := h2
      obtain ⟨p0, rfl⟩ := Option.ne_none_iff_exists'.mp ho
      subst hc
      simp [restore_original_state]
    · simp [restore_original_state, h1, h2]

/-- C7: when a display is present without brightness control, the
candidate pins `DISPLAY_BACKLIGHT`, `TFT_BACKLIGHT`, `BACKLIGHT` are
probed in that priority order and the first present one is selected;
in particular a registry on which only `BACKLIGHT` exists yields a
controller with `control_method = "pin"` on pin `BACKLIGHT`. -/
theorem pin_probe_order (b : Board)
    (hd : b.displayLookup = DisplayLookup.ok none) :
    (b.hasPin "DISPLAY_BACKLIGHT" = true →
       (constructedState b).control_method = some "pin" ∧
       (constructedState b).backlight_pin = some "DISPLAY_BACKLIGHT") ∧
    (b.hasPin "DISPLAY_BACKLIGHT" = false →
     b.hasPin "TFT_BACKLIGHT" = true →
       (constructedState b).control_method = some "pin" ∧
       (constructedState b).backlight_pin = some "TFT_BACKLIGHT") ∧
    (b.hasPin "DISPLAY_BACKLIGHT" = false →
     b.hasPin "TFT_BACKLIGHT" = false →
     b.hasPin "BACKLIGHT" = true →
       (constructedState b).control_method = some "pin" ∧
       (constructedState b).backlight_pin = some "BACKLIGHT") := by
  refine ⟨fun h1 => ?_, fun h1 h2 => ?_, fun h1 h2 h3 => ?_⟩ <;>
    simp [constructedState, TFTBlinky.init, initTry, hd, findPin,
      backlight_pins, h1] <;>
    simp [h2] <;>
    simp [h3]

/-- Witness for C7: the board on which only `BACKLIGHT` exists. -/
theorem pin_probe_order_witness :
    (constructedState boardOnlyBACKLIGHT).control_method = some "pin" ∧
    (constructedState boardOnlyBACKLIGHT).backlight_pin =
      some "BACKLIGHT" :=
  (pin_probe_order boardOnlyBACKLIGHT rfl).2.2 (by decide) (by decide)
    (by decide)

/-- C8: construction never raises: for every board it returns `ok`; a
display lookup raising either modelled exception class yields the inert
state with the "No built-in display detected." diagnostic; a display
without brightness and no matching candidate pin yields the inert state
with the "Could not find …" diagnostic. -/
theorem init_never_raises (b : Board) :
    (∃ r, TFTBlinky.init b = Except.ok r) ∧
    (∀ e, b.displayLookup = DisplayLookup.raises e →
       TFTBlinky.init b =
         Except.ok (inertS, [Event.print "No built-in display detected."])) ∧
    (b.displayLookup = DisplayLookup.ok none →
     findPin b.hasPin backlight_pins = none →
       TFTBlinky.init b =
         Except.ok (inertS, [Event.print "Could not find backlight control method. Please check your board documentation."])) := by
  refine ⟨?_, fun e he => ?_, fun hd hp => ?_⟩
  · rcases hdl : b.displayLookup with obr | e
    · rcases obr with _ | br
      · rcases hfp : findPin b.hasPin backlight_pins with _ | n
        · refine ⟨(inertS,
            [Event.print "Could not find backlight control method. Please check your board documentation."]), ?_⟩
          simp [TFTBlinky.init, initTry, hdl, hfp]
        · refine ⟨(S.mk (some "pin") none (some (b.pinValue n)) (some n)
              0 (b.pinValue n),
            [Event.print ("Using " ++ n ++ " pin for backlight control")]),
            ?_⟩
          simp [TFTBlinky.init, initTry, hdl, hfp]
      · refine ⟨(S.mk (some "brightness") (some br) none none br false,
          [Event.print "Using display brightness control"]), ?_⟩
        simp [TFTBlinky.init, initTry, hdl]
    · cases e <;>
        · refine ⟨(inertS,
            [Event.print "No built-in display detected."]), ?_⟩
          simp [TFTBlinky.init, initTry, hdl]
  · cases e <;> simp [TFTBlinky.init, initTry, he]
  · simp [TFTBlinky.init, initTry, hd, hp]

/-- Witness for C8: a board whose display lookup raises
`AttributeError`. -/
theorem init_never_raises_witness :
    TFTBlinky.init boardRaising =
      Except.ok (inertS, [Event.print "No built-in display detected."]) :=
  (init_never_raises boardRaising).2.1 PyExc.attributeError rfl

/-- C9: for a controller with `control_method = "pin"` and
`original_state = false`, `blink(2, t1, t2)` writes exactly
`[true, false, true, false, false]` to the pin; the trailing `false` is
the restoration write. -/
theorem blink_pin_sequence (s : S) (t1 t2 : ℚ)
    (hm : s.control_method = some "pin")
    (ho : s.original_state = some false) :
    pinWrites (blink s 2 t1 t2).2 = [true, false, true, false, false] := by
  obtain ⟨cm, ob, os, bp, db, pl⟩ := s
  simp only [S.control_method] at hm
  simp only [S.original_state] at ho
  subst hm; subst ho
  simp [blink, pyFalsy, blinkLoop, set_backlight, restore_original_state,
    pinWrites, Int.toNat]

/-- Witness for C9: the concrete pin controller, `blink(2, 1, 1)`. -/
theorem blink_pin_sequence_witness :
    pinWrites (blink samplePin 2 1 1).2 =
      [true, false, true, false, false] :=
  blink_pin_sequence samplePin 1 1 rfl rfl

/-- C10: for every controller with an active method and every negative
count, `blink(count, t1, t2)` behaves exactly like `blink(0, t1, t2)`
(`range(count)` is empty): no on/off writes and no sleeps, just the
unconditional restoration; the embedding is total, so nothing raises. -/
theorem blink_negative (s : S) (c : Int) (t1 t2 : ℚ)
    (hm : s.control_method = some "brightness" ∨
      s.control_method = some "pin")
    (hc : c < 0) :
    blink s c t1 t2 = blink s 0 t1 t2 ∧
    blink s c t1 t2 = restore_original_state s := by
  have h0 : c.toNat = 0 := Int.toNat_of_nonpos hc.le
  exact ⟨(blink_toNat_zero s c t1 t2 hm h0).trans
      (blink_toNat_zero s 0 t1 t2 hm rfl).symm,
    blink_toNat_zero s c t1 t2 hm h0⟩

/-- Witness for C10: the concrete brightness controller,
`blink(-3, 1, 1)`. -/
theorem blink_negative_witness :
    blink sampleBr (-3) 1 1 = blink sampleBr 0 1 1 ∧
    blink sampleBr (-3) 1 1 = restore_original_state sampleBr :=
  blink_negative sampleBr (-3) 1 1 (Or.inl rfl) (by decide)
